import Mathlib

/-!
# Verification development for `backend/server.js`

A shallow embedding of the Express request handlers of `server.js`.

* Request bodies are parsed JSON values (`Json`); a JavaScript value that may be
  `undefined` is an `Option Json`, `none` standing for `undefined`.
* Everything a handler reaches outside the process (the wall clock, `JSON.stringify`,
  `JSON.parse`, bcrypt, the MySQL pool, axios, multer's file name) is an explicit
  argument of the handler's model; every effect (messages sent on sockets, queries
  issued, files in `uploads/`) is an explicit component of its result.
* The pool is the promise pool of `mysql2/promise` (lines 5 and 43): `pool.query(sql,
  values)` returns a promise, which the `await` handlers use, and it never calls a
  function passed as third argument.
-/

namespace Server

/-! ## JSON values and the JavaScript operators the handlers apply to them -/

/-- A parsed JSON value. Numbers are kept as integers: the handlers only test numbers
for truthiness and for strict equality with `0`. Objects list their own enumerable
properties in enumeration order. -/
inductive Json where
  | null : Json
  | bool (b : Bool) : Json
  | num (n : Int) : Json
  | str (s : String) : Json
  | arr (items : List Json) : Json
  | obj (fields : List (String × Json)) : Json

/-- JavaScript `ToBoolean`: `undefined`, `null`, `false`, `0` and `""` are falsy,
everything else (every array and every object included) is truthy. -/
def truthy : Option Json → Bool
  | none => false
  | some Json.null => false
  | some (Json.bool b) => b
  | some (Json.num n) => decide (n ≠ 0)
  | some (Json.str s) => decide (s ≠ "")
  | some (Json.arr _) => true
  | some (Json.obj _) => true

/-- Property read `v.key` on a value that is neither `undefined` nor `null`, for the
identifier keys the handlers use (`length` and the body field names): an object yields
its own property, an array or a string has `length`, any other read is `undefined`.
The length of a string is only ever compared with zero by the handlers. -/
def Json.prop (v : Json) (key : String) : Option Json :=
  match v with
  | Json.obj fields => List.lookup key fields
  | Json.arr items => if key = "length" then some (Json.num items.length) else none
  | Json.str s => if key = "length" then some (Json.num s.length) else none
  | _ => none

/-- Strict comparison `x === 0`. -/
def strictEqZero : Option Json → Bool
  | some (Json.num n) => decide (n = 0)
  | _ => false

/-- The expression `a || b` when `b` is a defined value. -/
def jsOr (a : Option Json) (b : Json) : Json :=
  match a with
  | some v => if truthy (some v) then v else b
  | none => b

/-- `Array.isArray`. -/
def isArray : Json → Bool
  | Json.arr _ => true
  | _ => false

/-- An HTTP response: status code and the value handed to `res.json`. -/
structure Response where
  status : Nat
  body : Json

/-! ## Real-time clients -/

/-- The `readyState` of a `ws` socket. -/
inductive ReadyState where
  | CONNECTING
  | OPEN
  | CLOSING
  | CLOSED
  deriving DecidableEq, Repr

/-- One member of `wss.clients`. -/
structure Client where
  id : Nat
  readyState : ReadyState
  deriving DecidableEq, Repr

/-! ## `POST /api/assign-case` -/

/-- The guard of line 103:
`!caseKey || !title || !scenarios || !questions || !assignedStudents ||
 assignedStudents.length === 0`. The last disjunct is only evaluated when
`assignedStudents` is truthy. -/
def assignCaseInvalid (body : Json) : Bool :=
  !truthy (body.prop "caseKey") || !truthy (body.prop "title") ||
  !truthy (body.prop "scenarios") || !truthy (body.prop "questions") ||
  (match body.prop "assignedStudents" with
   | none => true
   | some a => !truthy (some a) || strictEqZero (a.prop "length"))

/-- The event built at lines 109-115; `clock` is `new Date().toLocaleTimeString()`.
Evaluated only after the guard, so `assignedStudents` is defined there. -/
def newActivity (clock : String) (body : Json) : Json :=
  Json.obj [
    ("type", Json.str "assignment"),
    ("caseKey", jsOr (body.prop "caseKey") (Json.str "N/A")),
    ("title", jsOr (body.prop "title") (Json.str "Unknown Title")),
    ("assignedStudents",
      match body.prop "assignedStudents" with
      | some a => if truthy (a.prop "length") then a else Json.arr []
      | none => Json.arr []),
    ("timestamp", Json.str clock)]

/-- The loop of lines 119-123: `wss.clients.forEach`, sending to the open sockets.
The result lists the `(client id, payload)` pairs in the order of the calls to `send`. -/
def broadcast (clients : List Client) (payload : String) : List (Nat × String) :=
  clients.foldl
    (fun sent client =>
      if client.readyState = ReadyState.OPEN then sent ++ [(client.id, payload)] else sent)
    []

/-- The handler of `POST /api/assign-case`: its response and the socket sends it made. -/
def assignCase (stringify : Json → String) (clock : String) (clients : List Client)
    (body : Json) : Response × List (Nat × String) :=
  if assignCaseInvalid body then
    (⟨400, Json.obj [("error", Json.str
      "Invalid payload. Case ID, title, scenarios, questions, and assigned students are required.")]⟩,
     [])
  else
    let activity := newActivity clock body
    let sent := broadcast clients (stringify activity)
    (⟨200, Json.obj [("message", Json.str "Case assigned successfully!"),
                     ("newActivity", activity)]⟩, sent)

/-- Number of `send` calls made on the socket with the given id. -/
def sendCount (sent : List (Nat × String)) (cid : Nat) : Nat :=
  (sent.filter (fun m => decide (m.1 = cid))).length

/-! ## `POST /process` -/

/-- The `req.file` object set by `upload.single("file")`; the handler reads its `path`. -/
structure UploadedFile where
  path : String

/-- How `axios.post` settles: resolved, with the status and parsed data of the answer, or
rejected with an error that has a message and, when the service answered, a
`response.data`. A rejection without a response also stands for any other exception
thrown inside the `try` block. -/
inductive AxiosOutcome where
  | resolved (status : Nat) (data : Json)
  | rejected (message : String) (responseData : Option Json)

/-- What one `/process` request leaves behind: the response, the files of `uploads/`, and
the paths that were posted to the comparison service. -/
structure ProcessResult where
  response : Response
  uploads : List String
  posts : List String

/-- The multer middleware with `dest: "uploads/"`: an attached file is written under the
generated path `tmpPath` and becomes `req.file`; without one `req.file` stays undefined. -/
def multerSingle (tmpPath : String) (attached : Bool) (uploads : List String) :
    Option UploadedFile × List String :=
  if attached then (some ⟨tmpPath⟩, tmpPath :: uploads) else (none, uploads)

/-- The call `fs.unlinkSync(path)`: removes the directory entry, `none` (it throws) when
there is none. -/
def unlinkSync (path : String) (files : List String) : Option (List String) :=
  if path ∈ files then some (files.filter (fun f => decide (f ≠ path))) else none

/-- The `try`/`catch` part of the `/process` handler (lines 328-350): response and posts. -/
def processBody (outcome : AxiosOutcome) (file : Option UploadedFile) :
    Response × List String :=
  match file with
  | none => (⟨400, Json.obj [("error", Json.str "No file uploaded")]⟩, [])
  | some f =>
    match outcome with
    | AxiosOutcome.resolved _ data => (⟨200, data⟩, [f.path])
    | AxiosOutcome.rejected message responseData =>
      (⟨500, Json.obj [("error", Json.str message),
                       ("details", jsOr responseData (Json.obj []))]⟩, [f.path])

/-- The `finally` block (lines 351-356): `if (req.file && req.file.path) unlinkSync(...)`.
Were `unlinkSync` to throw, the directory would be left as it is. -/
def processFinally (file : Option UploadedFile) (uploads : List String) : List String :=
  match file with
  | none => uploads
  | some f =>
    if f.path ≠ "" then
      match unlinkSync f.path uploads with
      | some rest => rest
      | none => uploads
    else uploads

/-- The handler of `POST /process`, run on the `req.file` that multer produced. -/
def processHandler (outcome : AxiosOutcome) (file : Option UploadedFile)
    (uploads : List String) : ProcessResult :=
  let r := processBody outcome file
  ⟨r.1, processFinally file uploads, r.2⟩

/-- One `POST /process` request: the multer middleware, then the handler. -/
def processRequest (tmpPath : String) (attached : Bool) (outcome : AxiosOutcome)
    (uploads : List String) : ProcessResult :=
  let m := multerSingle tmpPath attached uploads
  processHandler outcome m.1 m.2

/-! ## `GET /api/student-assignments/:studentName` (the handler registered first) -/

/-- A row of `case_assignments` as the driver returns it; each column is whatever value
the driver produced for it. -/
structure AssignmentRow where
  case_id : Json
  title : Json
  scenarios : Json
  questions : Json
  assigned_at : Json

/-- The `try { x = JSON.parse(raw) } catch { x = raw }` step; `parse` is `JSON.parse`,
`none` when it throws. -/
def parseOrRaw (parse : Json → Option Json) (raw : Json) : Json :=
  match parse raw with
  | some v => v
  | none => raw

/-- The guard `Array.isArray(x) ? x : []` of lines 167-168. -/
def arrayOrEmpty (v : Json) : Json :=
  if isArray v then v else Json.arr []

/-- The callback of `results.map` (lines 147-171). -/
def toAssignment (parse : Json → Option Json) (row : AssignmentRow) : Json :=
  let scenarios := parseOrRaw parse row.scenarios
  let questions := parseOrRaw parse row.questions
  Json.obj [
    ("caseId", row.case_id),
    ("title", row.title),
    ("scenarios", arrayOrEmpty scenarios),
    ("questions", arrayOrEmpty questions),
    ("assignedAt", row.assigned_at)]

/-- The handler of lines 129-178. `query` is the `SELECT ... WHERE student_name = ?`
round trip: the rows, or the error it throws. -/
def studentAssignments (parse : Json → Option Json)
    (query : String → Except String (List AssignmentRow)) (studentName : String) : Response :=
  if studentName = "" then
    ⟨400, Json.obj [("error", Json.str "Student name is required.")]⟩
  else
    match query studentName with
    | Except.error _ => ⟨500, Json.obj [("error", Json.str "Failed to fetch assignments.")]⟩
    | Except.ok results =>
      if results.length = 0 then
        ⟨404, Json.obj [("message", Json.str "No assignments found for this student.")]⟩
      else
        ⟨200, Json.arr (results.map (toAssignment parse))⟩

/-! ## `POST /api/signup` and `POST /api/login` -/

/-- A row of `users`; `none` is SQL `NULL`. -/
structure User where
  id : Nat
  name : Option String
  email : Option String
  password : Option String
  role : Option String

/-- The `users` table together with its next auto-increment id. -/
structure UserStore where
  rows : List User
  nextId : Nat

/-- The SQL comparison `column = ?`: never true when a side is `NULL` (an `undefined`
parameter is sent as `NULL`), otherwise decided by the column collation `coll`. -/
def sqlEq (coll : String → String → Bool) : Option String → Option String → Bool
  | some a, some b => coll a b
  | _, _ => false

/-- A JSON rendering of a nullable text column. -/
def textJson : Option String → Json
  | some s => Json.str s
  | none => Json.null

/-- The four fields read from the body by signup, and the three read by login. -/
structure Account where
  name : Option String
  email : Option String
  password : Option String
  role : Option String

/-- What a signup request leaves behind: response, table, and the number of `INSERT`
statements issued. -/
structure SignupResult where
  response : Response
  store : UserStore
  inserts : Nat

/-- The handler of `POST /api/signup` (lines 215-239). `fails k` tells whether the
`k`-th query of the request throws; `hash p` is `bcrypt.hash(p, 10)`, which rejects when
the password is not a string. -/
def signup (coll : String → String → Bool) (hash : String → String) (fails : Nat → Bool)
    (store : UserStore) (req : Account) : SignupResult :=
  let failure : Response :=
    ⟨500, Json.obj [("error", Json.str "An error occurred while processing your request.")]⟩
  if fails 0 then ⟨failure, store, 0⟩
  else
    let existingUsers := store.rows.filter (fun u => sqlEq coll u.email req.email)
    if existingUsers.length > 0 then
      ⟨⟨400, Json.obj [("error", Json.str "User already exists with this email.")]⟩, store, 0⟩
    else
      match req.password with
      | none => ⟨failure, store, 0⟩
      | some p =>
        let hashedPassword := hash p
        if fails 1 then ⟨failure, store, 1⟩
        else
          ⟨⟨201, Json.obj [("message", Json.str "User created successfully!")]⟩,
           ⟨store.rows ++ [⟨store.nextId, req.name, req.email, some hashedPassword, req.role⟩],
            store.nextId + 1⟩, 1⟩

/-- The handler of `POST /api/login` (lines 180-213). `compare p h` is
`bcrypt.compare(p, h)`, which rejects when an argument is not a string. -/
def login (coll : String → String → Bool) (compare : String → String → Bool)
    (fails : Nat → Bool) (store : UserStore) (req : Account) : Response :=
  let failure : Response := ⟨500, Json.obj [("error", Json.str "Database error occurred.")]⟩
  if fails 0 then failure
  else
    match store.rows.filter (fun u => sqlEq coll u.email req.email && sqlEq coll u.role req.role) with
    | [] => ⟨404, Json.obj [("error", Json.str "User not found.")]⟩
    | user :: _ =>
      match req.password, user.password with
      | some p, some h =>
        if compare p h then
          ⟨200, Json.obj [
            ("message", Json.str "Login successful"),
            ("user", Json.obj [
              ("id", Json.num user.id),
              ("name", textJson user.name),
              ("email", textJson user.email),
              ("role", textJson user.role)])]⟩
        else ⟨401, Json.obj [("error", Json.str "Invalid email or password.")]⟩
      | _, _ => failure

/-! ## `POST /api/submit-answers` -/

/-- The value of one entry of `Object.entries(answers)`: a JSON value, or, for an answers
text holding a character outside the basic plane, the one-unit string made of one of its
two surrogate code units, which is not a JSON text of its own. -/
inductive EntryValue where
  | value (v : Json)
  | surrogate (unit : Nat)

/-- The values `s[0]`, `s[1]`, ... of a text, one per UTF-16 code unit: a character of
the basic plane is one unit, any other character is a high and a low surrogate. -/
def codeUnitValues (s : String) : List EntryValue :=
  s.toList.flatMap (fun c =>
    if c.toNat < 65536 then [EntryValue.value (Json.str (String.singleton c))]
    else [EntryValue.surrogate (55296 + (c.toNat - 65536) / 1024),
          EntryValue.surrogate (56320 + (c.toNat - 65536) % 1024)])

/-- The list `Object.entries(v)` of a truthy JSON value: the fields of an object, the
indexed elements of an array, the indexed code units of a string, nothing for a number
or a boolean. -/
def objectEntries : Json → List (String × EntryValue)
  | Json.obj fields => fields.map (fun p => (p.1, EntryValue.value p.2))
  | Json.arr items => items.enum.map (fun p => (toString p.1, EntryValue.value p.2))
  | Json.str s => (codeUnitValues s).enum.map (fun p => (toString p.1, p.2))
  | _ => []

/-- The parameter list of one `INSERT INTO student_answers`. -/
structure AnswerInsert where
  studentName : Json
  caseId : Json
  questionId : String
  answer : EntryValue

/-- The guard of line 288:
`!studentName || !caseId || !answers || Object.keys(answers).length === 0`. -/
def submitAnswersInvalid (body : Json) : Bool :=
  !truthy (body.prop "studentName") || !truthy (body.prop "caseId") ||
  (match body.prop "answers" with
   | none => true
   | some a => !truthy (some a) || decide ((objectEntries a).length = 0))

/-- The state of a JavaScript promise. -/
inductive PromiseState where
  | fulfilled
  | rejected
  | pending
  deriving DecidableEq, Repr

/-- The promise of lines 305-313,
`new Promise((resolve, reject) => pool.query(query, params, cb))`. Only `cb` calls
`resolve` or `reject`, and the promise pool never calls `cb`: the promise stays pending,
whatever becomes of the insert. -/
def insertPromise : PromiseState := PromiseState.pending

/-- The call `Promise.all(promises)`: rejected once a member is rejected, fulfilled when
all members are, pending otherwise. -/
def promiseAll (promises : List PromiseState) : PromiseState :=
  if promises.any (fun p => decide (p = PromiseState.rejected)) then PromiseState.rejected
  else if promises.all (fun p => decide (p = PromiseState.fulfilled)) then
    PromiseState.fulfilled
  else PromiseState.pending

/-- The handler of `POST /api/submit-answers` (lines 284-323): the response, if one is
sent, and the inserts issued, in order. Every insert is issued when its promise is built
(`answersArray.map`); the 200 is sent by `.then`, the 500 by `.catch`. -/
def submitAnswers (body : Json) : Option Response × List AnswerInsert :=
  if submitAnswersInvalid body then
    (some ⟨400, Json.obj [("error", Json.str "Invalid payload. All fields are required.")]⟩,
     [])
  else
    match body.prop "studentName", body.prop "caseId", body.prop "answers" with
    | some studentName, some caseId, some answers =>
      let answersArray := objectEntries answers
      let issued := answersArray.map (fun e => AnswerInsert.mk studentName caseId e.1 e.2)
      let promises := answersArray.map (fun _ => insertPromise)
      match promiseAll promises with
      | PromiseState.fulfilled =>
        (some ⟨200, Json.obj [("message", Json.str "Answers submitted successfully!")]⟩, issued)
      | PromiseState.rejected =>
        (some ⟨500, Json.obj [("error", Json.str "Failed to save answers. Please try again.")]⟩,
         issued)
      | PromiseState.pending => (none, issued)
    | _, _, _ =>
      (some ⟨400, Json.obj [("error", Json.str "Invalid payload. All fields are required.")]⟩,
       [])

/-! ## Vocabulary of the statements -/

/-- A body field that is missing (absent or `null`) or an empty string. -/
def missingOrBlank : Option Json → Bool
  | none => true
  | some Json.null => true
  | some (Json.str s) => decide (s = "")
  | _ => false

/-- The 400 response of `POST /api/assign-case`. -/
def assignCaseValidationError : Response :=
  ⟨400, Json.obj [("error", Json.str
    "Invalid payload. Case ID, title, scenarios, questions, and assigned students are required.")]⟩

/-- A request body used in the examples: every field present, one assigned student. -/
def sampleAssignBody : Json :=
  Json.obj [
    ("caseKey", Json.str "case-1"),
    ("title", Json.str "Chest pain"),
    ("scenarios", Json.arr [Json.str "s1"]),
    ("questions", Json.arr [Json.str "q1"]),
    ("assignedStudents", Json.arr [Json.str "alice"])]

/-- A request body whose `scenarios` and `questions` are empty lists. -/
def emptyListsAssignBody : Json :=
  Json.obj [
    ("caseKey", Json.str "case-1"),
    ("title", Json.str "Chest pain"),
    ("scenarios", Json.arr []),
    ("questions", Json.arr []),
    ("assignedStudents", Json.arr [Json.str "alice"])]

/-- A request body whose `assignedStudents` is the number 5. -/
def numberStudentsAssignBody : Json :=
  Json.obj [
    ("caseKey", Json.str "case-1"),
    ("title", Json.str "Chest pain"),
    ("scenarios", Json.arr [Json.str "s1"]),
    ("questions", Json.arr [Json.str "q1"]),
    ("assignedStudents", Json.num 5)]

/-- A stand-in for `JSON.stringify` in the examples. -/
def sampleStringify : Json → String := fun _ => "payload"

/-- Two connected sockets, the first open, the second closed. -/
def sampleClients : List Client := [⟨1, ReadyState.OPEN⟩, ⟨2, ReadyState.CLOSED⟩]

/-- The 400 response of `POST /process`. -/
def missingFileError : Response :=
  ⟨400, Json.obj [("error", Json.str "No file uploaded")]⟩

/-- A stand-in for `JSON.parse` in the examples; it agrees with `JSON.parse` on the raw
values used there: it parses the text `[]` and throws on `not json` and on `[`. -/
def sampleParse : Json → Option Json
  | Json.str "[]" => some (Json.arr [])
  | _ => none

/-- A stored assignment whose `scenarios` and `questions` texts are malformed. -/
def malformedRow : AssignmentRow :=
  ⟨Json.num 7, Json.str "Chest pain", Json.str "not json", Json.str "[", Json.str "2024-01-01"⟩

/-- The 400 response of `POST /api/submit-answers`. -/
def submitAnswersValidationError : Response :=
  ⟨400, Json.obj [("error", Json.str "Invalid payload. All fields are required.")]⟩

/-- A user table with one teacher in it. -/
def sampleStore : UserStore :=
  ⟨[⟨1, some "Tess", some "tess@example.org", some "hash:pw1", some "teacher"⟩], 2⟩

/-- Binary collation: two texts are equal when they are the same text. -/
def binaryCollation : String → String → Bool := fun a b => decide (a = b)

/-- A stand-in for `bcrypt.hash` in the examples. -/
def sampleHash : String → String := fun p => "hash:" ++ p

/-- A stand-in for `bcrypt.compare` in the examples. -/
def sampleCompare : String → String → Bool := fun p h => decide (h = "hash:" ++ p)

/-- Every query of the request succeeds. -/
def noFailure : Nat → Bool := fun _ => false

/-- The lookup query of the request throws; a later query would not. -/
def lookupThrows : Nat → Bool := fun k => decide (k = 0)

/-- A submission of one answer whose `caseId` is the number 0. -/
def zeroCaseIdBody : Json :=
  Json.obj [
    ("studentName", Json.str "alice"),
    ("caseId", Json.num 0),
    ("answers", Json.obj [("q1", Json.str "yes")])]

/-- A submission of two answers. -/
def sampleAnswersBody : Json :=
  Json.obj [
    ("studentName", Json.str "alice"),
    ("caseId", Json.num 3),
    ("answers", Json.obj [("q1", Json.str "yes"), ("q2", Json.str "no")])]

/-! ## Shared lemmas -/

theorem broadcast_foldl_eq (clients : List Client) (payload : String)
    (acc : List (Nat × String)) :
    clients.foldl
      (fun sent client =>
        if client.readyState = ReadyState.OPEN then sent ++ [(client.id, payload)] else sent)
      acc
    = acc ++ (clients.filter (fun c => decide (c.readyState = ReadyState.OPEN))).map
        (fun c => (c.id, payload)) := by
  induction clients generalizing acc with
  | nil => simp
  | cons c cs ih =>
    simp only [List.foldl_cons]
    rw [ih]
    by_cases h : c.readyState = ReadyState.OPEN
    · simp [h, List.filter_cons]
    · simp [h, List.filter_cons]

theorem broadcast_eq_filter_map (clients : List Client) (payload : String) :
    broadcast clients payload
      = (clients.filter (fun c => decide (c.readyState = ReadyState.OPEN))).map
          (fun c => (c.id, payload)) := by
  unfold broadcast
  rw [broadcast_foldl_eq]
  simp

theorem sendCount_broadcast (clients : List Client) (payload : String) (cid : Nat)
    (hnd : (clients.map Client.id).Nodup) :
    sendCount (broadcast clients payload) cid
      = if ∃ c ∈ clients, c.id = cid ∧ c.readyState = ReadyState.OPEN then 1 else 0 := by
  rw [broadcast_eq_filter_map]
  unfold sendCount
  induction clients with
  | nil => simp
  | cons c cs ih =>
    have hnd' : (cs.map Client.id).Nodup := (List.nodup_cons.mp (by simpa using hnd)).2
    have hnot : c.id ∉ cs.map Client.id := (List.nodup_cons.mp (by simpa using hnd)).1
    have ih' := ih hnd'
    by_cases hopen : c.readyState = ReadyState.OPEN
    · by_cases hid : c.id = cid
      · have hnone : ¬ ∃ d ∈ cs, d.id = cid ∧ d.readyState = ReadyState.OPEN := by
          rintro ⟨d, hd, hdid, _⟩
          exact hnot (List.mem_map.mpr ⟨d, hd, hdid.trans hid.symm⟩)
        rw [if_neg hnone] at ih'
        have hex : ∃ d ∈ c :: cs, d.id = cid ∧ d.readyState = ReadyState.OPEN :=
          ⟨c, List.mem_cons_self _ _, hid, hopen⟩
        rw [if_pos hex]
        simp only [List.filter_cons, hopen, decide_True, if_true, List.map_cons, hid]
        simpa using ih'
      · have hiff : (∃ d ∈ c :: cs, d.id = cid ∧ d.readyState = ReadyState.OPEN)
            ↔ ∃ d ∈ cs, d.id = cid ∧ d.readyState = ReadyState.OPEN := by
          constructor
          · rintro ⟨d, hd, hdid, hdo⟩
            rcases List.mem_cons.mp hd with rfl | hd
            · exact absurd hdid hid
            · exact ⟨d, hd, hdid, hdo⟩
          · rintro ⟨d, hd, h⟩
            exact ⟨d, List.mem_cons_of_mem _ hd, h⟩
        simp only [hiff]
        simp only [List.filter_cons, hopen, decide_True, if_true, List.map_cons, hid,
          decide_False]
        simpa using ih'
    · have hiff : (∃ d ∈ c :: cs, d.id = cid ∧ d.readyState = ReadyState.OPEN)
          ↔ ∃ d ∈ cs, d.id = cid ∧ d.readyState = ReadyState.OPEN := by
        constructor
        · rintro ⟨d, hd, hdid, hdo⟩
          rcases List.mem_cons.mp hd with rfl | hd
          · exact absurd hdo hopen
          · exact ⟨d, hd, hdid, hdo⟩
        · rintro ⟨d, hd, h⟩
          exact ⟨d, List.mem_cons_of_mem _ hd, h⟩
      simp only [hiff]
      simp only [List.filter_cons, hopen, decide_False]
      simpa using ih'

theorem truthy_of_not_invalid_caseKey (body : Json) (h : assignCaseInvalid body = false) :
    truthy (body.prop "caseKey") = true ∧ truthy (body.prop "title") = true ∧
    truthy (body.prop "scenarios") = true ∧ truthy (body.prop "questions") = true ∧
    ∃ a, body.prop "assignedStudents" = some a ∧ truthy (some a) = true ∧
      strictEqZero (a.prop "length") = false := by
  unfold assignCaseInvalid at h
  simp only [Bool.or_eq_false_iff, Bool.not_eq_false'] at h
  obtain ⟨⟨⟨⟨h1, h2⟩, h3⟩, h4⟩, h5⟩ := h
  refine ⟨h1, h2, h3, h4, ?_⟩
  cases hA : body.prop "assignedStudents" with
  | none => rw [hA] at h5; simp at h5
  | some a =>
    rw [hA] at h5
    simp only [Bool.or_eq_false_iff, Bool.not_eq_false'] at h5
    exact ⟨a, rfl, h5.1, h5.2⟩

theorem missingOrBlank_not_truthy (v : Option Json) (h : missingOrBlank v = true) :
    truthy v = false := by
  match v, h with
  | none, _ => rfl
  | some Json.null, _ => rfl
  | some (Json.str s), h =>
    simp only [missingOrBlank, decide_eq_true_eq] at h
    simp [truthy, h]

theorem jsOr_of_truthy (v : Json) (b : Json) (h : truthy (some v) = true) :
    jsOr (some v) b = v := by
  simp [jsOr, h]

theorem submitAnswersInvalid_iff (body : Json) :
    submitAnswersInvalid body = true ↔
      (truthy (body.prop "studentName") = false
        ∨ truthy (body.prop "caseId") = false
        ∨ truthy (body.prop "answers") = false
        ∨ (∃ a, body.prop "answers" = some a ∧ objectEntries a = [])) := by
  unfold submitAnswersInvalid
  cases hA : body.prop "answers" with
  | none => simp [truthy]
  | some a =>
    simp only [Bool.or_eq_true, Bool.not_eq_true', decide_eq_true_eq, List.length_eq_zero,
      Option.some.injEq, exists_eq_left']
    tauto

/-! ## Claims -/

/-- C1: a request that passes validation is answered 200 with the success message,
whatever the clients are; every message sent is the serialized event; every connected
client that is open receives it exactly once, every connected client in another state
receives nothing, and so does every socket that is not in the client set at call time. -/
theorem assign_case_broadcast (stringify : Json → String) (clock : String)
    (clients : List Client) (body : Json)
    (hvalid : assignCaseInvalid body = false)
    (hnd : (clients.map Client.id).Nodup) :
    (assignCase stringify clock clients body).1
        = ⟨200, Json.obj [("message", Json.str "Case assigned successfully!"),
                          ("newActivity", newActivity clock body)]⟩
    ∧ (∀ m ∈ (assignCase stringify clock clients body).2,
        m.2 = stringify (newActivity clock body))
    ∧ (∀ c ∈ clients, c.readyState = ReadyState.OPEN →
        sendCount (assignCase stringify clock clients body).2 c.id = 1)
    ∧ (∀ c ∈ clients, c.readyState ≠ ReadyState.OPEN →
        sendCount (assignCase stringify clock clients body).2 c.id = 0)
    ∧ (∀ cid, cid ∉ clients.map Client.id →
        sendCount (assignCase stringify clock clients body).2 cid = 0) := by
  have hr : assignCase stringify clock clients body
      = (⟨200, Json.obj [("message", Json.str "Case assigned successfully!"),
                         ("newActivity", newActivity clock body)]⟩,
         broadcast clients (stringify (newActivity clock body))) := by
    simp [assignCase, hvalid]
  rw [hr]
  refine ⟨rfl, ?_, ?_, ?_, ?_⟩
  · intro m hm
    simp only [broadcast_eq_filter_map, List.mem_map] at hm
    obtain ⟨c, _, rfl⟩ := hm
    rfl
  · intro c hc hopen
    simp only [sendCount_broadcast clients _ c.id hnd]
    rw [if_pos ⟨c, hc, rfl, hopen⟩]
  · intro c hc hclosed
    simp only [sendCount_broadcast clients _ c.id hnd]
    rw [if_neg]
    rintro ⟨d, hd, hid, hopen⟩
    have hinj := List.inj_on_of_nodup_map hnd hd hc hid
    exact hclosed (hinj ▸ hopen)
  · intro cid hcid
    simp only [sendCount_broadcast clients _ cid hnd]
    rw [if_neg]
    rintro ⟨d, hd, hid, _⟩
    exact hcid (List.mem_map.mpr ⟨d, hd, hid⟩)

/-- Witness of C1: with one open and one closed socket, the open one gets one message. -/
theorem assign_case_broadcast_witness :
    assignCaseInvalid sampleAssignBody = false
    ∧ (sampleClients.map Client.id).Nodup
    ∧ (assignCase sampleStringify "10:15:00" sampleClients sampleAssignBody).1.status = 200
    ∧ sendCount (assignCase sampleStringify "10:15:00" sampleClients sampleAssignBody).2 1 = 1
    ∧ sendCount (assignCase sampleStringify "10:15:00" sampleClients sampleAssignBody).2 2 = 0 :=
  have h := assign_case_broadcast sampleStringify "10:15:00" sampleClients sampleAssignBody
    (by decide) (by decide)
  ⟨by decide, by decide, by rw [h.1],
   h.2.2.1 ⟨1, ReadyState.OPEN⟩ (by decide) rfl,
   h.2.2.2.1 ⟨2, ReadyState.CLOSED⟩ (by decide) (by decide)⟩

/-- Counterexample to C2 as stated: a body whose `scenarios` and `questions` are empty
lists is accepted: the answer is 200 and the open socket receives the event. -/
theorem assign_case_empty_lists_accepted :
    emptyListsAssignBody.prop "scenarios" = some (Json.arr [])
    ∧ emptyListsAssignBody.prop "questions" = some (Json.arr [])
    ∧ (assignCase sampleStringify "10:15:00" sampleClients emptyListsAssignBody).1.status = 200
    ∧ (assignCase sampleStringify "10:15:00" sampleClients emptyListsAssignBody).2
        = [(1, "payload")] := by
  refine ⟨by rfl, by rfl, by rfl, by rfl⟩

/-- C2 (amended): when one of caseKey, title, scenarios, questions, assignedStudents is
missing (absent or null) or an empty string, or assignedStudents is an empty list, the
handler answers 400 with the validation error and sends nothing to any client. -/
theorem assign_case_rejects (stringify : Json → String) (clock : String)
    (clients : List Client) (body : Json)
    (h : missingOrBlank (body.prop "caseKey") = true
       ∨ missingOrBlank (body.prop "title") = true
       ∨ missingOrBlank (body.prop "scenarios") = true
       ∨ missingOrBlank (body.prop "questions") = true
       ∨ missingOrBlank (body.prop "assignedStudents") = true
       ∨ body.prop "assignedStudents" = some (Json.arr [])) :
    assignCase stringify clock clients body = (assignCaseValidationError, []) := by
  have hinv : assignCaseInvalid body = true := by
    unfold assignCaseInvalid
    rcases h with h | h | h | h | h | h
    · simp [missingOrBlank_not_truthy _ h]
    · simp [missingOrBlank_not_truthy _ h]
    · simp [missingOrBlank_not_truthy _ h]
    · simp [missingOrBlank_not_truthy _ h]
    · have := missingOrBlank_not_truthy _ h
      cases hA : body.prop "assignedStudents" with
      | none => simp
      | some a => rw [hA] at this; simp [this]
    · rw [h]
      simp [Json.prop, strictEqZero]
  simp [assignCase, hinv, assignCaseValidationError]

/-- Witness of C2 (amended): an empty body is rejected without any send. -/
theorem assign_case_rejects_witness :
    assignCase sampleStringify "10:15:00" sampleClients (Json.obj [])
      = (assignCaseValidationError, []) :=
  assign_case_rejects sampleStringify "10:15:00" sampleClients (Json.obj [])
    (Or.inl (by decide))

/-- C3: whatever the outcome of the handler, the files of the temp-storage directory
after a `/process` request are those before it, the file written for the request is
gone, and without an attached file the answer is 400 "No file uploaded" with no call
to the comparison service. -/
theorem process_leaves_no_file (tmpPath : String) (attached : Bool) (outcome : AxiosOutcome)
    (uploads : List String) (hfresh : tmpPath ∉ uploads) (hpath : tmpPath ≠ "") :
    (processRequest tmpPath attached outcome uploads).uploads = uploads
    ∧ tmpPath ∉ (processRequest tmpPath attached outcome uploads).uploads
    ∧ (attached = false →
        (processRequest tmpPath attached outcome uploads).response = missingFileError
        ∧ (processRequest tmpPath attached outcome uploads).posts = []) := by
  have hfilter : uploads.filter (fun f => decide (f ≠ tmpPath)) = uploads := by
    apply List.filter_eq_self.mpr
    intro f hf
    have : f ≠ tmpPath := fun h => hfresh (h ▸ hf)
    simpa using this
  have huploads : (processRequest tmpPath attached outcome uploads).uploads = uploads := by
    cases attached with
    | false => simp [processRequest, multerSingle, processHandler, processFinally]
    | true =>
      have hall : ∀ a ∈ uploads, ¬ a = tmpPath := fun a ha h => hfresh (h ▸ ha)
      simp [processRequest, multerSingle, processHandler, processFinally, unlinkSync, hpath,
        List.filter_cons, hfilter]
      exact hall
  refine ⟨huploads, ?_, ?_⟩
  · rw [huploads]; exact hfresh
  · intro hatt
    subst hatt
    simp [processRequest, multerSingle, processHandler, processBody, missingFileError]

/-- Witness of C3: an upload whose forward is rejected leaves the directory as it was. -/
theorem process_leaves_no_file_witness :
    "uploads/3f9a" ∉ ["uploads/keep"] ∧ "uploads/3f9a" ≠ ""
    ∧ (processRequest "uploads/3f9a" true (AxiosOutcome.rejected "ECONNREFUSED" none)
        ["uploads/keep"]).uploads = ["uploads/keep"] :=
  ⟨by decide, by decide,
   (process_leaves_no_file "uploads/3f9a" true (AxiosOutcome.rejected "ECONNREFUSED" none)
      ["uploads/keep"] (by decide) (by decide)).1⟩

/-- Counterexample to C4 as stated: the comparison service answers 201 and the caller is
answered 200. -/
theorem process_status_not_relayed :
    (processRequest "uploads/3f9a" true (AxiosOutcome.resolved 201 (Json.obj [])) []
      ).response.status = 200
    ∧ (processRequest "uploads/3f9a" true (AxiosOutcome.resolved 201 (Json.obj [])) []
      ).response.status ≠ 201 := by
  refine ⟨by rfl, by decide⟩

/-- C4 (amended): when the comparison service answers successfully with status `s` and
body `b`, the caller is answered with status 200 and body `b`, unchanged. -/
theorem process_relays_body (tmpPath : String) (uploads : List String) (s : Nat) (b : Json) :
    (processRequest tmpPath true (AxiosOutcome.resolved s b) uploads).response = ⟨200, b⟩ := by
  simp [processRequest, multerSingle, processHandler, processBody]

/-- C5, the code at a failing input: one stored assignment whose `scenarios` text is
`not json` and whose `questions` text is `[`. Neither text parses, the `catch` blocks
keep the raw texts, and the answer is 200 with both fields replaced by empty lists
instead of the raw stored values. -/
theorem student_assignments_malformed_not_raw :
    sampleParse malformedRow.scenarios = none
    ∧ sampleParse malformedRow.questions = none
    ∧ parseOrRaw sampleParse malformedRow.scenarios = malformedRow.scenarios
    ∧ parseOrRaw sampleParse malformedRow.questions = malformedRow.questions
    ∧ studentAssignments sampleParse (fun _ => Except.ok [malformedRow]) "alice"
        = ⟨200, Json.arr [Json.obj [
            ("caseId", Json.num 7),
            ("title", Json.str "Chest pain"),
            ("scenarios", Json.arr []),
            ("questions", Json.arr []),
            ("assignedAt", Json.str "2024-01-01")]]⟩
    ∧ Json.arr [] ≠ malformedRow.scenarios
    ∧ Json.arr [] ≠ malformedRow.questions := by
  refine ⟨by rfl, by rfl, by rfl, by rfl, by rfl, ?_, ?_⟩
  · intro h; cases h
  · intro h; cases h

/-- C6: when no stored user matches the email of a signup payload (name, email, password,
role), the hasher verifies a password against its own hash and the queries succeed,
signup answers 201 and stores the new user with the hashed password, and a login with
the same email, password and role answers 200 with a profile made of exactly the id,
name, email and role of the new user. -/
theorem signup_then_login (coll : String → String → Bool) (hash : String → String)
    (compare : String → String → Bool) (failsSignup failsLogin : Nat → Bool)
    (store : UserStore) (name email password role : String)
    (hrefl : ∀ t, coll t t = true)
    (hverify : ∀ p, compare p (hash p) = true)
    (hfresh : ∀ u ∈ store.rows, sqlEq coll u.email (some email) = false)
    (hselect : failsSignup 0 = false) (hinsert : failsSignup 1 = false)
    (hlookup : failsLogin 0 = false) :
    (signup coll hash failsSignup store
        ⟨some name, some email, some password, some role⟩).response
      = ⟨201, Json.obj [("message", Json.str "User created successfully!")]⟩
    ∧ (signup coll hash failsSignup store
        ⟨some name, some email, some password, some role⟩).store.rows
      = store.rows ++ [⟨store.nextId, some name, some email, some (hash password), some role⟩]
    ∧ login coll compare failsLogin
        (signup coll hash failsSignup store
          ⟨some name, some email, some password, some role⟩).store
        ⟨some name, some email, some password, some role⟩
      = ⟨200, Json.obj [
          ("message", Json.str "Login successful"),
          ("user", Json.obj [
            ("id", Json.num store.nextId),
            ("name", Json.str name),
            ("email", Json.str email),
            ("role", Json.str role)])]⟩ := by
  have hnone : store.rows.filter (fun u => sqlEq coll u.email (some email)) = [] := by
    apply List.filter_eq_nil_iff.mpr
    intro u hu
    simp [hfresh u hu]
  have hnone2 : store.rows.filter
      (fun u => sqlEq coll u.email (some email) && sqlEq coll u.role (some role)) = [] := by
    apply List.filter_eq_nil_iff.mpr
    intro u hu
    simp [hfresh u hu]
  have hs : signup coll hash failsSignup store ⟨some name, some email, some password, some role⟩
      = ⟨⟨201, Json.obj [("message", Json.str "User created successfully!")]⟩,
         ⟨store.rows ++ [⟨store.nextId, some name, some email, some (hash password), some role⟩],
          store.nextId + 1⟩, 1⟩ := by
    simp [signup, hselect, hinsert, hnone]
  rw [hs]
  refine ⟨rfl, rfl, ?_⟩
  have hfound : (store.rows
        ++ [(⟨store.nextId, some name, some email, some (hash password), some role⟩ : User)]).filter
      (fun u => sqlEq coll u.email (some email) && sqlEq coll u.role (some role))
      = [⟨store.nextId, some name, some email, some (hash password), some role⟩] := by
    rw [List.filter_append, hnone2]
    simp [List.filter_cons, sqlEq, hrefl]
  unfold login
  simp only [hlookup, hfound]
  simp [hverify, textJson]

/-- Witness of C6: a student signs up into a table holding one teacher, then logs in. -/
theorem signup_then_login_witness :
    login binaryCollation sampleCompare noFailure
        (signup binaryCollation sampleHash noFailure sampleStore
          ⟨some "Al", some "al@example.org", some "pw2", some "student"⟩).store
        ⟨some "Al", some "al@example.org", some "pw2", some "student"⟩
      = ⟨200, Json.obj [
          ("message", Json.str "Login successful"),
          ("user", Json.obj [
            ("id", Json.num 2),
            ("name", Json.str "Al"),
            ("email", Json.str "al@example.org"),
            ("role", Json.str "student")])]⟩ :=
  (signup_then_login binaryCollation sampleHash sampleCompare noFailure noFailure sampleStore
    "Al" "al@example.org" "pw2" "student"
    (by intro t; simp [binaryCollation])
    (by intro p; simp [sampleCompare, sampleHash])
    (by intro u hu; simp [sampleStore] at hu; subst hu; decide)
    rfl rfl rfl).2.2

/-- Counterexample to C7 as stated: the email of the payload is that of a stored user
and the lookup query throws: the answer is 500, not 400. -/
theorem signup_duplicate_lookup_throws :
    (∃ u ∈ sampleStore.rows, u.email = some "tess@example.org")
    ∧ (signup binaryCollation sampleHash lookupThrows sampleStore
        ⟨some "Other", some "tess@example.org", some "pw9", some "student"⟩).response
      = ⟨500, Json.obj [("error",
          Json.str "An error occurred while processing your request.")]⟩
    ∧ (signup binaryCollation sampleHash lookupThrows sampleStore
        ⟨some "Other", some "tess@example.org", some "pw9", some "student"⟩).response.status
      ≠ 400 := by
  refine ⟨⟨⟨1, some "Tess", some "tess@example.org", some "hash:pw1", some "teacher"⟩,
    by simp [sampleStore], rfl⟩, by rfl, by decide⟩

/-- C7 (amended): when the email of a signup payload is the email of a stored user,
signup issues no insert and leaves the table unchanged; when the lookup query answers,
it responds 400 "User already exists with this email.", and when the lookup query
throws, it responds 500. -/
theorem signup_duplicate_rejected (coll : String → String → Bool) (hash : String → String)
    (fails : Nat → Bool) (store : UserStore) (req : Account) (email : String)
    (hrefl : ∀ t, coll t t = true)
    (hemail : req.email = some email)
    (hdup : ∃ u ∈ store.rows, u.email = some email) :
    (signup coll hash fails store req).inserts = 0
    ∧ (signup coll hash fails store req).store = store
    ∧ (fails 0 = false →
        (signup coll hash fails store req).response
          = ⟨400, Json.obj [("error", Json.str "User already exists with this email.")]⟩)
    ∧ (fails 0 = true →
        (signup coll hash fails store req).response
          = ⟨500, Json.obj [("error",
              Json.str "An error occurred while processing your request.")]⟩) := by
  obtain ⟨u, hu, hue⟩ := hdup
  have hmem : u ∈ store.rows.filter (fun u => sqlEq coll u.email req.email) := by
    apply List.mem_filter.mpr
    refine ⟨hu, ?_⟩
    simp [hue, hemail, sqlEq, hrefl]
  have hpos : 0 < (store.rows.filter (fun u => sqlEq coll u.email req.email)).length :=
    List.length_pos_of_mem hmem
  cases hselect : fails 0 with
  | true => simp [signup, hselect]
  | false => simp [signup, hselect, hpos]

/-- Witness of C7 (amended): signing up with the stored teacher's email is rejected. -/
theorem signup_duplicate_rejected_witness :
    (signup binaryCollation sampleHash noFailure sampleStore
        ⟨some "Other", some "tess@example.org", some "pw9", some "student"⟩).inserts = 0
    ∧ (signup binaryCollation sampleHash noFailure sampleStore
        ⟨some "Other", some "tess@example.org", some "pw9", some "student"⟩).store = sampleStore
    ∧ (signup binaryCollation sampleHash noFailure sampleStore
        ⟨some "Other", some "tess@example.org", some "pw9", some "student"⟩).response
      = ⟨400, Json.obj [("error", Json.str "User already exists with this email.")]⟩ :=
  have h := signup_duplicate_rejected binaryCollation sampleHash noFailure sampleStore
    ⟨some "Other", some "tess@example.org", some "pw9", some "student"⟩ "tess@example.org"
    (by intro t; simp [binaryCollation]) rfl
    ⟨⟨1, some "Tess", some "tess@example.org", some "hash:pw1", some "teacher"⟩,
      by simp [sampleStore], rfl⟩
  ⟨h.1, h.2.1, h.2.2.1 rfl⟩

/-- Counterexample to C8 as stated: a submission whose three fields are present and not
empty, with `caseId` the number 0, is answered 400 without any insert; and a submission
that passes the guard has its two inserts issued and is sent no response at all, neither
200 nor 500. -/
theorem submit_answers_zero_case_and_no_response :
    missingOrBlank (zeroCaseIdBody.prop "studentName") = false
    ∧ missingOrBlank (zeroCaseIdBody.prop "caseId") = false
    ∧ missingOrBlank (zeroCaseIdBody.prop "answers") = false
    ∧ (zeroCaseIdBody.prop "answers").map (fun a => (objectEntries a).length) = some 1
    ∧ submitAnswers zeroCaseIdBody = (some submitAnswersValidationError, [])
    ∧ submitAnswersInvalid sampleAnswersBody = false
    ∧ submitAnswers sampleAnswersBody
        = (none,
           [⟨Json.str "alice", Json.num 3, "q1", EntryValue.value (Json.str "yes")⟩,
            ⟨Json.str "alice", Json.num 3, "q2", EntryValue.value (Json.str "no")⟩]) := by
  refine ⟨by rfl, by rfl, by rfl, by rfl, by rfl, by rfl, by rfl⟩

/-- C8 (amended): a submission in which studentName, caseId or answers is falsy
(missing, null, false, 0 or an empty string), or in which answers has no entry, is
answered 400 with the validation error and issues no insert; every other submission
issues exactly one insert per entry of answers, in order, each with parameters
(studentName, caseId, questionId, answer). -/
theorem submit_answers_guard_and_inserts (body : Json) :
    ((truthy (body.prop "studentName") = false
        ∨ truthy (body.prop "caseId") = false
        ∨ truthy (body.prop "answers") = false
        ∨ (∃ a, body.prop "answers" = some a ∧ objectEntries a = []))
      → submitAnswers body = (some submitAnswersValidationError, []))
    ∧ (¬ (truthy (body.prop "studentName") = false
        ∨ truthy (body.prop "caseId") = false
        ∨ truthy (body.prop "answers") = false
        ∨ (∃ a, body.prop "answers" = some a ∧ objectEntries a = []))
      → ∃ studentName caseId answers,
          body.prop "studentName" = some studentName
          ∧ body.prop "caseId" = some caseId
          ∧ body.prop "answers" = some answers
          ∧ (submitAnswers body).2
              = (objectEntries answers).map
                  (fun e => AnswerInsert.mk studentName caseId e.1 e.2)
          ∧ (∀ fields, answers = Json.obj fields →
              (submitAnswers body).2
                = fields.map (fun p =>
                    AnswerInsert.mk studentName caseId p.1 (EntryValue.value p.2)))) := by
  refine ⟨?_, ?_⟩
  · intro h
    have hinv := (submitAnswersInvalid_iff body).mpr h
    simp [submitAnswers, hinv, submitAnswersValidationError]
  · intro h
    have hvalid : submitAnswersInvalid body = false := by
      cases hinv : submitAnswersInvalid body with
      | false => rfl
      | true => exact absurd ((submitAnswersInvalid_iff body).mp hinv) h
    simp only [not_or] at h
    obtain ⟨h1, h2, h3, _⟩ := h
    cases hS : body.prop "studentName" with
    | none => rw [hS] at h1; simp [truthy] at h1
    | some studentName =>
    cases hC : body.prop "caseId" with
    | none => rw [hC] at h2; simp [truthy] at h2
    | some caseId =>
    cases hA : body.prop "answers" with
    | none => rw [hA] at h3; simp [truthy] at h3
    | some answers =>
    have hins : (submitAnswers body).2
        = (objectEntries answers).map
            (fun e => AnswerInsert.mk studentName caseId e.1 e.2) := by
      simp only [submitAnswers, hvalid, hS, hC, hA]
      cases promiseAll ((objectEntries answers).map (fun _ => insertPromise)) <;> rfl
    refine ⟨studentName, caseId, answers, rfl, rfl, rfl, hins, ?_⟩
    intro fields hfields
    rw [hins, hfields]
    simp [objectEntries, List.map_map]

/-- Witness of C8 (amended): a submission without fields is answered 400, and a
submission of two answers issues two inserts. -/
theorem submit_answers_guard_and_inserts_witness :
    submitAnswers (Json.obj []) = (some submitAnswersValidationError, [])
    ∧ (submitAnswers sampleAnswersBody).2.length = 2 := by
  refine ⟨(submit_answers_guard_and_inserts (Json.obj [])).1 (Or.inl (by rfl)), ?_⟩
  obtain ⟨_, _, answers, _, _, hA, hins, _⟩ :=
    (submit_answers_guard_and_inserts sampleAnswersBody).2 (by
      rintro (h | h | h | ⟨a, ha, hempty⟩)
      · exact absurd h (by decide)
      · exact absurd h (by decide)
      · exact absurd h (by decide)
      · have hprop : sampleAnswersBody.prop "answers"
            = some (Json.obj [("q1", Json.str "yes"), ("q2", Json.str "no")]) := by rfl
        rw [hprop] at ha
        have := Option.some.inj ha
        subst this
        simp [objectEntries] at hempty)
  have hprop : sampleAnswersBody.prop "answers"
      = some (Json.obj [("q1", Json.str "yes"), ("q2", Json.str "no")]) := by rfl
  rw [hprop] at hA
  have := Option.some.inj hA
  subst this
  rw [hins]
  simp [objectEntries]

/-- C9, the code at a failing input: a student without assignments is answered 404 with
a body that has a `message` field and no `error` field. -/
theorem failure_bodies_without_error_field :
    studentAssignments sampleParse (fun _ => Except.ok []) "alice"
      = ⟨404, Json.obj [("message", Json.str "No assignments found for this student.")]⟩
    ∧ (studentAssignments sampleParse (fun _ => Except.ok []) "alice").body.prop "error"
      = none := by
  refine ⟨by rfl, by rfl⟩

/-- Counterexample to C10 as stated: a body whose `assignedStudents` is the number 5
passes validation, and the event that is broadcast and returned carries an empty
`assignedStudents` list. -/
theorem assign_case_number_students :
    assignCaseInvalid numberStudentsAssignBody = false
    ∧ numberStudentsAssignBody.prop "assignedStudents" = some (Json.num 5)
    ∧ (newActivity "10:15:00" numberStudentsAssignBody).prop "assignedStudents"
        = some (Json.arr [])
    ∧ Json.arr [] ≠ Json.num 5
    ∧ (assignCase sampleStringify "10:15:00" sampleClients numberStudentsAssignBody).1
        = ⟨200, Json.obj [("message", Json.str "Case assigned successfully!"),
            ("newActivity", newActivity "10:15:00" numberStudentsAssignBody)]⟩
    ∧ (assignCase sampleStringify "10:15:00" sampleClients numberStudentsAssignBody).2
        = [(1, "payload")] := by
  refine ⟨by rfl, by rfl, by rfl, ?_, by rfl, by rfl⟩
  intro h; cases h

/-- C10 (amended): for a body that passes validation, the event that is broadcast and
returned has type "assignment", the caseKey and title of the request, and as
assignedStudents the request's value when that value has a truthy `length`, the empty
list otherwise; when the request's assignedStudents is a JSON array, it is non-empty and
the event carries it unchanged. -/
theorem assign_case_event (stringify : Json → String) (clock : String)
    (clients : List Client) (body : Json)
    (hvalid : assignCaseInvalid body = false) :
    ∃ caseKey title students,
      body.prop "caseKey" = some caseKey
      ∧ body.prop "title" = some title
      ∧ body.prop "assignedStudents" = some students
      ∧ newActivity clock body = Json.obj [
          ("type", Json.str "assignment"),
          ("caseKey", caseKey),
          ("title", title),
          ("assignedStudents",
            if truthy (students.prop "length") then students else Json.arr []),
          ("timestamp", Json.str clock)]
      ∧ (∀ L, students = Json.arr L →
          L ≠ [] ∧ (newActivity clock body).prop "assignedStudents" = some (Json.arr L))
      ∧ (assignCase stringify clock clients body).1.body.prop "newActivity"
          = some (newActivity clock body)
      ∧ ∀ m ∈ (assignCase stringify clock clients body).2,
          m.2 = stringify (newActivity clock body) := by
  obtain ⟨h1, h2, _, _, students, hA, _, hlen⟩ := truthy_of_not_invalid_caseKey body hvalid
  cases hK : body.prop "caseKey" with
  | none => rw [hK] at h1; simp [truthy] at h1
  | some caseKey =>
  cases hT : body.prop "title" with
  | none => rw [hT] at h2; simp [truthy] at h2
  | some title =>
  rw [hK] at h1
  rw [hT] at h2
  have hev : newActivity clock body = Json.obj [
      ("type", Json.str "assignment"),
      ("caseKey", caseKey),
      ("title", title),
      ("assignedStudents",
        if truthy (students.prop "length") then students else Json.arr []),
      ("timestamp", Json.str clock)] := by
    simp only [newActivity, hK, hT, hA, jsOr_of_truthy _ _ h1, jsOr_of_truthy _ _ h2]
  have hr : assignCase stringify clock clients body
      = (⟨200, Json.obj [("message", Json.str "Case assigned successfully!"),
                         ("newActivity", newActivity clock body)]⟩,
         broadcast clients (stringify (newActivity clock body))) := by
    simp [assignCase, hvalid]
  refine ⟨caseKey, title, students, rfl, rfl, hA, hev, ?_, ?_, ?_⟩
  · intro L hL
    subst hL
    have hne : L ≠ [] := by
      intro hnil
      subst hnil
      simp [Json.prop, strictEqZero] at hlen
    refine ⟨hne, ?_⟩
    have hpos : L.length ≠ 0 := fun h => hne (List.length_eq_zero.mp h)
    rw [hev]
    simp [Json.prop, List.lookup, truthy, hpos]
  · rw [hr]
    simp [Json.prop, List.lookup]
  · intro m hm
    rw [hr] at hm
    simp only [broadcast_eq_filter_map, List.mem_map] at hm
    obtain ⟨c, _, rfl⟩ := hm
    rfl

/-- Witness of C10 (amended): a body with one assigned student passes validation and
the event carries that list. -/
theorem assign_case_event_witness :
    assignCaseInvalid sampleAssignBody = false
    ∧ (newActivity "10:15:00" sampleAssignBody).prop "assignedStudents"
        = some (Json.arr [Json.str "alice"]) := by
  refine ⟨by decide, ?_⟩
  obtain ⟨_, _, students, _, _, hS, _, harr, _, _⟩ :=
    assign_case_event sampleStringify "10:15:00" sampleClients sampleAssignBody (by decide)
  have hprop : sampleAssignBody.prop "assignedStudents"
      = some (Json.arr [Json.str "alice"]) := by rfl
  rw [hprop] at hS
  exact (harr _ (Option.some.inj hS).symm).2

end Server
